import Mathlib

/-!
Verification of the toolbox subreddit-configuration core: the schema
validation / normalization pipeline and the typed accessor layer of
`SubredditConfig` (src/classes/SubredditConfig.ts), against the JSON schema
`CONFIG_SCHEMA` (src/types/RawSubredditConfig.ts).

The embedding has two layers:
* a JSON layer (`Json`, `migrateConfigToLatestSchema`, `validateRoot`,
  `normalizeTopLevel`, `construct`) modelling the constructor pipeline
  `migrateConfigToLatestSchema` -> AJV validation of `CONFIG_SCHEMA` ->
  the null-to-undefined rewrite loop of `validateConfig`;
* a typed layer (`RawSubredditConfig` and the accessor functions) modelling
  the getter methods of the `SubredditConfig` class.  Methods of the class
  are embedded in state-passing style: each takes the wrapped document and
  returns its result together with the (possibly updated) document.
-/

/-- JSON values as produced by `JSON.parse`.  Numbers are modelled as
integers: the only numeric field in the whole schema is the schema version,
an integer. -/
inductive Json where
  | null
  | bool (b : Bool)
  | num (n : Int)
  | str (s : String)
  | arr (items : List Json)
  | obj (fields : List (String × Json))

/-- True exactly on the JSON `null` value. -/
def Json.isNull : Json → Bool
  | Json.null => true
  | _ => false

/-- First binding of a key in a JSON object's field list (JavaScript property
lookup; `JSON.parse` never produces duplicate keys). -/
def lookupField : List (String × Json) → String → Option Json
  | [], _ => none
  | (k, v) :: rest, key => if k = key then some v else lookupField rest key

/-- Replace the value bound to a key (models AJV writing a coerced value back
into the data object). -/
def replaceField (fields : List (String × Json)) (key : String) (v : Json) :
    List (String × Json) :=
  fields.map (fun p => if p.1 = key then (p.1, v) else p)

/-- Top-level bindings of a JSON value (empty for non-objects). -/
def topBindings : Json → List (String × Json)
  | Json.obj fields => fields
  | _ => []

/-- A domain tag (`RawDomainTag` in src/types/RawSubredditConfig.ts). -/
structure RawDomainTag where
  name : String
  color : String
deriving Repr, DecidableEq

/-- Default ban note and message (`RawBanMacro`). -/
structure RawBanMacro where
  banNote : String
  banMessage : String
deriving Repr, DecidableEq

/-- Scalar removal-reason settings (`RawRemovalReasonSettings`).  The two
enumeration fields are kept as strings; the validator enforces membership in
the allowed value sets. -/
structure RawRemovalReasonSettings where
  header : String
  footer : String
  pmsubject : String
  logreason : String
  logsub : String
  logtitle : String
  bantitle : String
  getfrom : String
  removalOption : String
  typeReply : String
  typeStickied : Bool
  typeCommentAsSubreddit : Bool
  typeLockThread : Bool
  typeLockComment : Bool
  typeAsSub : Bool
  autoArchive : Bool
deriving Repr, DecidableEq

/-- A single removal reason (`RawRemovalReason`). -/
structure RawRemovalReason where
  title : String
  text : String
  flairText : String
  flairCSS : String
  removePosts : Bool
  removeComments : Bool
deriving Repr, DecidableEq

/-- The removal-reason section: the scalar settings together with the reasons
sequence (`RawRemovalReasonSettingsAndReasons`, an intersection type in the
source). -/
structure RawRemovalReasonSettingsAndReasons extends RawRemovalReasonSettings where
  reasons : List RawRemovalReason
deriving Repr, DecidableEq

/-- A mod macro (`RawModMacro`). -/
structure RawModMacro where
  title : String
  text : String
  distinguish : Bool
  ban : Bool
  mute : Bool
  remove : Bool
  approve : Bool
  lockthread : Bool
  sticky : Bool
  archivemodmail : Bool
  highlightmodmail : Bool
deriving Repr, DecidableEq

/-- A usernote type (`RawUsernoteType`). -/
structure RawUsernoteType where
  key : String
  color : String
  text : String
deriving Repr, DecidableEq

/-- The root configuration document (`RawSubredditConfig`).  Optional fields
are `Option`s; `none` models an absent (`undefined`) field. -/
structure RawSubredditConfig where
  ver : Int
  domainTags : Option (List RawDomainTag)
  banMacros : Option RawBanMacro
  removalReasons : Option RawRemovalReasonSettingsAndReasons
  modMacros : Option (List RawModMacro)
  usernoteColors : Option (List RawUsernoteType)
deriving Repr, DecidableEq

/-- Modelled from the spec: `EARLIEST_KNOWN_CONFIG_SCHEMA` lives in
src/helpers/config, which is not under src/.  The latest schema version is 1
(the `ver: 1` field type of `RawSubredditConfig` and every test document),
and the schema's `minimum` and `maximum` bounds coincide with the known
version range, so the earliest known version is also 1. -/
def EARLIEST_KNOWN_CONFIG_SCHEMA : Int := 1

/-- Modelled from the spec: `LATEST_KNOWN_CONFIG_SCHEMA` from
src/helpers/config; the latest schema version is 1. -/
def LATEST_KNOWN_CONFIG_SCHEMA : Int := 1

/-- Modelled from the spec: `DEFAULT_USERNOTE_TYPES` from src/helpers/config
is "a fixed built-in default ordered sequence" of usernote types.  The exact
entries are not under src/; the placeholders below stand for them.  No
theorem depends on the particular values, only on the sequence being a fixed
nonempty constant. -/
def DEFAULT_USERNOTE_TYPES : List RawUsernoteType :=
  [⟨"gooduser", "green", "Good Contributor"⟩,
   ⟨"spamwarn", "purple", "Spam Warning"⟩,
   ⟨"ban", "red", "Ban"⟩]

/-- Modelled from the spec: `DEFAULT_REMOVAL_REASONS` from src/helpers/config
is "a fixed built-in default settings record".  The exact values are not
under src/; the record below stands for them.  No theorem depends on the
particular values. -/
def DEFAULT_REMOVAL_REASONS : RawRemovalReasonSettings :=
  { header := ""
    footer := ""
    pmsubject := ""
    logreason := ""
    logsub := ""
    logtitle := ""
    bantitle := ""
    getfrom := ""
    removalOption := "suggest"
    typeReply := "reply"
    typeStickied := false
    typeCommentAsSubreddit := false
    typeLockThread := false
    typeLockComment := false
    typeAsSub := false
    autoArchive := false }

/-- Modelled from the spec: `migrateConfigToLatestSchema` from
src/helpers/config is not under src/.  Per the spec, a document whose
version lies outside the known inclusive range is rejected with a hard
error before validation, migrating a document already at the latest
version is the identity, and with earliest = latest = 1 the chain has no
non-trivial step.  A document without a numeric version field is passed
through unchanged; the validator then rejects it. -/
def migrateConfigToLatestSchema (j : Json) : Except String Json :=
  match j with
  | Json.obj fields =>
    match lookupField fields "ver" with
    | some (Json.num n) =>
      if n < EARLIEST_KNOWN_CONFIG_SCHEMA ∨ LATEST_KNOWN_CONFIG_SCHEMA < n then
        Except.error "config version is out of range"
      else
        Except.ok j
    | _ => Except.ok j
  | _ => Except.ok j

/-- Sequence two validation steps, propagating the first error (the AJV
validator is compiled with `allErrors` off and reports the first violation). -/
def eseq {α : Type} : Except String Unit → Except String α → Except String α
  | Except.error e, _ => Except.error e
  | Except.ok _, next => next

/-- AJV type coercion to `null`: with `coerceTypes` enabled, the values `""`,
`0` and `false` coerce to `null` where the schema allows `null`
(every `nullable: true` field of `CONFIG_SCHEMA`; see the repository test
"accepts Toolbox default config and coerces empty strings to undefined"). -/
def coercesToNull : Json → Bool
  | Json.str s => s == ""
  | Json.num n => n == 0
  | Json.bool b => b == false
  | _ => false

/-- Required-property check of a JSON-schema object, in the order of the
schema's `required` list.  (AJV's message quotes the property name; the
quotes are left off here.) -/
def checkRequired (path : String) (fields : List (String × Json)) :
    List String → Except String Unit
  | [] => Except.ok ()
  | k :: rest =>
    match lookupField fields k with
    | some _ => checkRequired path fields rest
    | none => Except.error (path ++ " must have required property " ++ k)

/-- The `additionalProperties: false` check of a JSON-schema object. -/
def checkAdditional (path : String) (allowed : String → Bool)
    (fields : List (String × Json)) : Except String Unit :=
  if fields.all (fun p => allowed p.1) then Except.ok ()
  else Except.error (path ++ " must NOT have additional properties")

/-- Check that a present field is a string (`{type: 'string'}`).  Absent
fields are skipped: every string field below is also in its object's
`required` list, which is checked first. -/
def checkFieldString (path : String) (fields : List (String × Json))
    (key : String) : Except String Unit :=
  match lookupField fields key with
  | some (Json.str _) => Except.ok ()
  | some _ => Except.error (path ++ "/" ++ key ++ " must be string")
  | none => Except.ok ()

/-- Check that a present field is a boolean (`{type: 'boolean'}`). -/
def checkFieldBool (path : String) (fields : List (String × Json))
    (key : String) : Except String Unit :=
  match lookupField fields key with
  | some (Json.bool _) => Except.ok ()
  | some _ => Except.error (path ++ "/" ++ key ++ " must be boolean")
  | none => Except.ok ()

/-- Check that a present field is a string drawn from an `enum` list. -/
def checkFieldEnum (path : String) (fields : List (String × Json))
    (key : String) (allowed : List String) : Except String Unit :=
  match lookupField fields key with
  | some (Json.str s) =>
    if allowed.contains s then Except.ok ()
    else Except.error (path ++ "/" ++ key ++ " must be equal to one of the allowed values")
  | some _ => Except.error (path ++ "/" ++ key ++ " must be string")
  | none => Except.ok ()

/-- Allowed keys of a `domainTags` element. -/
def isDomainTagKey (k : String) : Bool := k == "name" || k == "color"

/-- Validator for one `domainTags` element: an object with exactly the
required string fields `name` and `color`. -/
def validateDomainTagElem (path : String) (v : Json) : Except String Json :=
  match v with
  | Json.obj fs =>
    eseq (checkRequired path fs ["name", "color"])
      (eseq (checkAdditional path isDomainTagKey fs)
        (eseq (checkFieldString path fs "name")
          (eseq (checkFieldString path fs "color") (Except.ok (Json.obj fs)))))
  | _ => Except.error (path ++ " must be object")

/-- Allowed keys of a `banMacros` object. -/
def isBanMacroKey (k : String) : Bool := k == "banNote" || k == "banMessage"

/-- Allowed keys of a removal-reason element. -/
def isRemovalReasonElemKey (k : String) : Bool :=
  k == "title" || k == "text" || k == "flairText" || k == "flairCSS" ||
  k == "removePosts" || k == "removeComments"

/-- Validator for one `removalReasons.reasons` element. -/
def validateRemovalReasonElem (path : String) (v : Json) : Except String Json :=
  match v with
  | Json.obj fs =>
    eseq (checkRequired path fs
        ["title", "text", "flairText", "flairCSS", "removePosts", "removeComments"])
      (eseq (checkAdditional path isRemovalReasonElemKey fs)
        (eseq (checkFieldString path fs "title")
          (eseq (checkFieldString path fs "text")
            (eseq (checkFieldString path fs "flairText")
              (eseq (checkFieldString path fs "flairCSS")
                (eseq (checkFieldBool path fs "removePosts")
                  (eseq (checkFieldBool path fs "removeComments")
                    (Except.ok (Json.obj fs)))))))))
  | _ => Except.error (path ++ " must be object")

/-- Allowed keys of a `modMacros` element. -/
def isModMacroKey (k : String) : Bool :=
  k == "title" || k == "text" || k == "distinguish" || k == "ban" ||
  k == "mute" || k == "remove" || k == "approve" || k == "lockthread" ||
  k == "sticky" || k == "archivemodmail" || k == "highlightmodmail"

/-- Validator for one `modMacros` element. -/
def validateModMacroElem (path : String) (v : Json) : Except String Json :=
  match v with
  | Json.obj fs =>
    eseq (checkRequired path fs
        ["title", "text", "distinguish", "ban", "mute", "remove", "approve",
         "lockthread", "sticky", "archivemodmail", "highlightmodmail"])
      (eseq (checkAdditional path isModMacroKey fs)
        (eseq (checkFieldString path fs "title")
          (eseq (checkFieldString path fs "text")
            (eseq (checkFieldBool path fs "distinguish")
              (eseq (checkFieldBool path fs "ban")
                (eseq (checkFieldBool path fs "mute")
                  (eseq (checkFieldBool path fs "remove")
                    (eseq (checkFieldBool path fs "approve")
                      (eseq (checkFieldBool path fs "lockthread")
                        (eseq (checkFieldBool path fs "sticky")
                          (eseq (checkFieldBool path fs "archivemodmail")
                            (eseq (checkFieldBool path fs "highlightmodmail")
                              (Except.ok (Json.obj fs))))))))))))))
  | _ => Except.error (path ++ " must be object")

/-- Allowed keys of a `usernoteColors` element. -/
def isNoteTypeKey (k : String) : Bool := k == "key" || k == "color" || k == "text"

/-- Validator for one `usernoteColors` element: an object with exactly the
required string fields `key`, `color` and `text`. -/
def validateNoteTypeElem (path : String) (v : Json) : Except String Json :=
  match v with
  | Json.obj fs =>
    eseq (checkRequired path fs ["key", "color", "text"])
      (eseq (checkAdditional path isNoteTypeKey fs)
        (eseq (checkFieldString path fs "key")
          (eseq (checkFieldString path fs "color")
            (eseq (checkFieldString path fs "text") (Except.ok (Json.obj fs))))))
  | _ => Except.error (path ++ " must be object")

/-- Validate the elements of an array one by one, left to right, addressing
errors at `path/index`. -/
def validateItems (path : String) (f : String → Json → Except String Json) :
    Nat → List Json → Except String (List Json)
  | _, [] => Except.ok []
  | i, x :: rest =>
    match f (path ++ "/" ++ toString i) x with
    | Except.error e => Except.error e
    | Except.ok x' =>
      match validateItems path f (i + 1) rest with
      | Except.error e => Except.error e
      | Except.ok rest' => Except.ok (x' :: rest')

/-- Validator for the `ver` property: a number (AJV coerces a numeric string)
within the schema's `minimum`/`maximum` bounds.  This is the only numeric
field of the schema and hence the only place scalar coercion matters. -/
def validateVerField (v : Json) : Except String Json :=
  match v with
  | Json.num n =>
    if n < EARLIEST_KNOWN_CONFIG_SCHEMA then Except.error "data/ver must be >= 1"
    else if LATEST_KNOWN_CONFIG_SCHEMA < n then Except.error "data/ver must be <= 1"
    else Except.ok (Json.num n)
  | Json.str s =>
    match s.toInt? with
    | some n =>
      if n < EARLIEST_KNOWN_CONFIG_SCHEMA then Except.error "data/ver must be >= 1"
      else if LATEST_KNOWN_CONFIG_SCHEMA < n then Except.error "data/ver must be <= 1"
      else Except.ok (Json.num n)
    | none => Except.error "data/ver must be number"
  | _ => Except.error "data/ver must be number"

/-- Validator for the nullable `domainTags` array. -/
def validateDomainTagsField (v : Json) : Except String Json :=
  if coercesToNull v then Except.ok Json.null
  else
    match v with
    | Json.null => Except.ok Json.null
    | Json.arr items =>
      match validateItems "data/domainTags" validateDomainTagElem 0 items with
      | Except.error e => Except.error e
      | Except.ok items' => Except.ok (Json.arr items')
    | _ => Except.error "data/domainTags must be array"

/-- Validator for the nullable `banMacros` object. -/
def validateBanMacrosField (v : Json) : Except String Json :=
  if coercesToNull v then Except.ok Json.null
  else
    match v with
    | Json.null => Except.ok Json.null
    | Json.obj fs =>
      eseq (checkRequired "data/banMacros" fs ["banNote", "banMessage"])
        (eseq (checkAdditional "data/banMacros" isBanMacroKey fs)
          (eseq (checkFieldString "data/banMacros" fs "banNote")
            (eseq (checkFieldString "data/banMacros" fs "banMessage")
              (Except.ok (Json.obj fs)))))
    | _ => Except.error "data/banMacros must be object"

/-- Allowed keys of the `removalReasons` object. -/
def isRemovalReasonsKey (k : String) : Bool :=
  k == "header" || k == "footer" || k == "pmsubject" || k == "logreason" ||
  k == "logsub" || k == "logtitle" || k == "bantitle" || k == "getfrom" ||
  k == "removalOption" || k == "typeReply" || k == "typeStickied" ||
  k == "typeCommentAsSubreddit" || k == "typeLockThread" ||
  k == "typeLockComment" || k == "typeAsSub" || k == "autoArchive" ||
  k == "reasons"

/-- Check that the present `reasons` field is an array of valid elements. -/
def checkReasonsArray (fs : List (String × Json)) : Except String Unit :=
  match lookupField fs "reasons" with
  | some (Json.arr items) =>
    match validateItems "data/removalReasons/reasons" validateRemovalReasonElem 0 items with
    | Except.error e => Except.error e
    | Except.ok _ => Except.ok ()
  | some _ => Except.error "data/removalReasons/reasons must be array"
  | none => Except.ok ()

/-- Validator for the nullable `removalReasons` object: all seventeen fields
are required, no extra keys, scalar fields typed per the schema, and the
`reasons` array validated element by element. -/
def validateRemovalReasonsField (v : Json) : Except String Json :=
  if coercesToNull v then Except.ok Json.null
  else
    match v with
    | Json.null => Except.ok Json.null
    | Json.obj fs =>
      eseq (checkRequired "data/removalReasons" fs
          ["header", "footer", "pmsubject", "logreason", "logsub", "logtitle",
           "bantitle", "getfrom", "removalOption", "typeReply", "typeStickied",
           "typeCommentAsSubreddit", "typeLockThread", "typeLockComment",
           "typeAsSub", "autoArchive", "reasons"])
        (eseq (checkAdditional "data/removalReasons" isRemovalReasonsKey fs)
          (eseq (checkFieldString "data/removalReasons" fs "header")
            (eseq (checkFieldString "data/removalReasons" fs "footer")
              (eseq (checkFieldString "data/removalReasons" fs "pmsubject")
                (eseq (checkFieldString "data/removalReasons" fs "logreason")
                  (eseq (checkFieldString "data/removalReasons" fs "logsub")
                    (eseq (checkFieldString "data/removalReasons" fs "logtitle")
                      (eseq (checkFieldString "data/removalReasons" fs "bantitle")
                        (eseq (checkFieldString "data/removalReasons" fs "getfrom")
                          (eseq (checkFieldEnum "data/removalReasons" fs "removalOption"
                              ["suggest", "leave", "force"])
                            (eseq (checkFieldEnum "data/removalReasons" fs "typeReply"
                                ["reply", "pm", "both", "none"])
                              (eseq (checkFieldBool "data/removalReasons" fs "typeStickied")
                                (eseq (checkFieldBool "data/removalReasons" fs "typeCommentAsSubreddit")
                                  (eseq (checkFieldBool "data/removalReasons" fs "typeLockThread")
                                    (eseq (checkFieldBool "data/removalReasons" fs "typeLockComment")
                                      (eseq (checkFieldBool "data/removalReasons" fs "typeAsSub")
                                        (eseq (checkFieldBool "data/removalReasons" fs "autoArchive")
                                          (eseq (checkReasonsArray fs)
                                            (Except.ok (Json.obj fs))))))))))))))))))))
    | _ => Except.error "data/removalReasons must be object"

/-- Validator for the nullable `modMacros` array. -/
def validateModMacrosField (v : Json) : Except String Json :=
  if coercesToNull v then Except.ok Json.null
  else
    match v with
    | Json.null => Except.ok Json.null
    | Json.arr items =>
      match validateItems "data/modMacros" validateModMacroElem 0 items with
      | Except.error e => Except.error e
      | Except.ok items' => Except.ok (Json.arr items')
    | _ => Except.error "data/modMacros must be array"

/-- Validator for the nullable `usernoteColors` array. -/
def validateUsernoteColorsField (v : Json) : Except String Json :=
  if coercesToNull v then Except.ok Json.null
  else
    match v with
    | Json.null => Except.ok Json.null
    | Json.arr items =>
      match validateItems "data/usernoteColors" validateNoteTypeElem 0 items with
      | Except.error e => Except.error e
      | Except.ok items' => Except.ok (Json.arr items')
    | _ => Except.error "data/usernoteColors must be array"

/-- The six top-level keys enumerated by `CONFIG_SCHEMA`. -/
def isRootKey (k : String) : Bool :=
  k == "ver" || k == "domainTags" || k == "banMacros" ||
  k == "removalReasons" || k == "modMacros" || k == "usernoteColors"

/-- Root `required` check (`ver` is the only required root property). -/
def checkRequiredRoot (fields : List (String × Json)) : Except String Unit :=
  checkRequired "data" fields ["ver"]

/-- Root `additionalProperties: false` check. -/
def checkAdditionalRoot (fields : List (String × Json)) : Except String Unit :=
  checkAdditional "data" isRootKey fields

/-- Validate one top-level property if present, writing the (possibly
coerced) value back; an absent optional property is skipped. -/
def validatePropAt (fields : List (String × Json)) (key : String)
    (f : Json → Except String Json) : Except String (List (String × Json)) :=
  match lookupField fields key with
  | none => Except.ok fields
  | some v =>
    match f v with
    | Except.error e => Except.error e
    | Except.ok v' => Except.ok (replaceField fields key v')

/-- Validate the first five top-level properties in schema declaration order
(`ver`, `domainTags`, `banMacros`, `removalReasons`, `modMacros`). -/
def validatePropsPre (fields : List (String × Json)) :
    Except String (List (String × Json)) :=
  match validatePropAt fields "ver" validateVerField with
  | Except.error e => Except.error e
  | Except.ok f1 =>
    match validatePropAt f1 "domainTags" validateDomainTagsField with
    | Except.error e => Except.error e
    | Except.ok f2 =>
      match validatePropAt f2 "banMacros" validateBanMacrosField with
      | Except.error e => Except.error e
      | Except.ok f3 =>
        match validatePropAt f3 "removalReasons" validateRemovalReasonsField with
        | Except.error e => Except.error e
        | Except.ok f4 =>
          match validatePropAt f4 "modMacros" validateModMacrosField with
          | Except.error e => Except.error e
          | Except.ok f5 => Except.ok f5

/-- Validate all top-level properties in schema declaration order
(`usernoteColors` is declared last). -/
def validateProps (fields : List (String × Json)) :
    Except String (List (String × Json)) :=
  match validatePropsPre fields with
  | Except.error e => Except.error e
  | Except.ok f5 => validatePropAt f5 "usernoteColors" validateUsernoteColorsField

/-- The compiled `CONFIG_SCHEMA` validator: the document must be an object;
then, at the root, the `required` check, the `additionalProperties` check and
the per-property subschemas, in AJV's deterministic order.  Returns the
document with coerced values written back. -/
def validateRoot (j : Json) : Except String Json :=
  match j with
  | Json.obj fields =>
    eseq (checkRequiredRoot fields)
      (eseq (checkAdditionalRoot fields)
        (match validateProps fields with
         | Except.error e => Except.error e
         | Except.ok fields' => Except.ok (Json.obj fields')))
  | _ => Except.error "data must be object"

/-- True on the bindings the null-to-undefined loop keeps untouched. -/
def keepNonNull (p : String × Json) : Bool :=
  !(p.2.isNull)

/-- The null-to-undefined loop at the end of `validateConfig`
(SubredditConfig.ts lines 38-43): every top-level property whose value is
`null` is rewritten to absent.  Assigning `undefined` in JavaScript makes the
property absent for every observable use (getters and `JSON.stringify`), so
it is modelled by dropping the binding. -/
def normalizeTopLevel : Json → Json
  | Json.obj fields => Json.obj (fields.filter keepNonNull)
  | v => v

/-- The `SubredditConfig` constructor pipeline on the parsed document:
`migrateConfigToLatestSchema`, then `validateConfig` (AJV validation plus the
null rewrite).  `JSON.parse` itself is outside the model: the input is the
already-parsed JSON value. -/
def construct (j : Json) : Except String Json :=
  match migrateConfigToLatestSchema j with
  | Except.error e => Except.error e
  | Except.ok m =>
    match validateRoot m with
    | Except.error e => Except.error e
    | Except.ok v => Except.ok (normalizeTopLevel v)

/-- Decode a validated `domainTags` element into the typed record. -/
def decodeDomainTag (v : Json) : Option RawDomainTag :=
  match v with
  | Json.obj fs =>
    match lookupField fs "name", lookupField fs "color" with
    | some (Json.str n), some (Json.str c) => some ⟨n, c⟩
    | _, _ => none
  | _ => none

/-- Decode a validated `banMacros` object into the typed record. -/
def decodeBanMacroJson (v : Json) : Option RawBanMacro :=
  match v with
  | Json.obj fs =>
    match lookupField fs "banNote", lookupField fs "banMessage" with
    | some (Json.str n), some (Json.str m) => some ⟨n, m⟩
    | _, _ => none
  | _ => none

/-- Decode a validated removal-reason element into the typed record. -/
def decodeRemovalReason (v : Json) : Option RawRemovalReason :=
  match v with
  | Json.obj fs =>
    match lookupField fs "title", lookupField fs "text",
        lookupField fs "flairText", lookupField fs "flairCSS",
        lookupField fs "removePosts", lookupField fs "removeComments" with
    | some (Json.str t), some (Json.str x), some (Json.str ft),
        some (Json.str fc), some (Json.bool rp), some (Json.bool rc) =>
      some ⟨t, x, ft, fc, rp, rc⟩
    | _, _, _, _, _, _ => none
  | _ => none

/-- Decode the validated `removalReasons` object into the typed record. -/
def decodeRemovalReasons (v : Json) : Option RawRemovalReasonSettingsAndReasons :=
  match v with
  | Json.obj fs =>
    match lookupField fs "header", lookupField fs "footer",
        lookupField fs "pmsubject", lookupField fs "logreason",
        lookupField fs "logsub", lookupField fs "logtitle",
        lookupField fs "bantitle", lookupField fs "getfrom" with
    | some (Json.str h), some (Json.str f), some (Json.str pm),
        some (Json.str lr), some (Json.str ls), some (Json.str lt),
        some (Json.str bt), some (Json.str gf) =>
      match lookupField fs "removalOption", lookupField fs "typeReply",
          lookupField fs "typeStickied", lookupField fs "typeCommentAsSubreddit",
          lookupField fs "typeLockThread", lookupField fs "typeLockComment",
          lookupField fs "typeAsSub", lookupField fs "autoArchive",
          lookupField fs "reasons" with
      | some (Json.str ro), some (Json.str tr), some (Json.bool ts),
          some (Json.bool tc), some (Json.bool tlt), some (Json.bool tlc),
          some (Json.bool tas), some (Json.bool aa), some (Json.arr rs) =>
        match rs.mapM decodeRemovalReason with
        | some reasons =>
          some { header := h, footer := f, pmsubject := pm, logreason := lr,
                 logsub := ls, logtitle := lt, bantitle := bt, getfrom := gf,
                 removalOption := ro, typeReply := tr, typeStickied := ts,
                 typeCommentAsSubreddit := tc, typeLockThread := tlt,
                 typeLockComment := tlc, typeAsSub := tas, autoArchive := aa,
                 reasons := reasons }
        | none => none
      | _, _, _, _, _, _, _, _, _ => none
    | _, _, _, _, _, _, _, _ => none
  | _ => none

/-- Decode a validated `modMacros` element into the typed record. -/
def decodeModMacroJson (v : Json) : Option RawModMacro :=
  match v with
  | Json.obj fs =>
    match lookupField fs "title", lookupField fs "text",
        lookupField fs "distinguish", lookupField fs "ban",
        lookupField fs "mute", lookupField fs "remove",
        lookupField fs "approve", lookupField fs "lockthread",
        lookupField fs "sticky", lookupField fs "archivemodmail",
        lookupField fs "highlightmodmail" with
    | some (Json.str t), some (Json.str x), some (Json.bool d),
        some (Json.bool b), some (Json.bool m), some (Json.bool r),
        some (Json.bool a), some (Json.bool l), some (Json.bool s),
        some (Json.bool am), some (Json.bool hm) =>
      some ⟨t, x, d, b, m, r, a, l, s, am, hm⟩
    | _, _, _, _, _, _, _, _, _, _, _ => none
  | _ => none

/-- Decode a validated `usernoteColors` element into the typed record. -/
def decodeNoteType (v : Json) : Option RawUsernoteType :=
  match v with
  | Json.obj fs =>
    match lookupField fs "key", lookupField fs "color", lookupField fs "text" with
    | some (Json.str k), some (Json.str c), some (Json.str t) => some ⟨k, c, t⟩
    | _, _, _ => none
  | _ => none

/-- Decode an optional top-level section: an absent binding decodes to
`none`, a present binding must decode with `f`. -/
def decodeOptField {α : Type} (fields : List (String × Json)) (key : String)
    (f : Json → Option α) : Option (Option α) :=
  match lookupField fields key with
  | none => some none
  | some v =>
    match f v with
    | some a => some (some a)
    | none => none

/-- Decode the normalized document into the typed `RawSubredditConfig` view.
The TypeScript implementation holds a single parsed object and reads its
properties directly through the typed interface; this decode makes the typed
view of the JSON layer explicit. -/
def decodeConfig (j : Json) : Option RawSubredditConfig :=
  match j with
  | Json.obj fields =>
    match lookupField fields "ver" with
    | some (Json.num n) =>
      match decodeOptField fields "domainTags" (fun v =>
              match v with
              | Json.arr items => items.mapM decodeDomainTag
              | _ => none),
          decodeOptField fields "banMacros" decodeBanMacroJson,
          decodeOptField fields "removalReasons" decodeRemovalReasons,
          decodeOptField fields "modMacros" (fun v =>
              match v with
              | Json.arr items => items.mapM decodeModMacroJson
              | _ => none),
          decodeOptField fields "usernoteColors" (fun v =>
              match v with
              | Json.arr items => items.mapM decodeNoteType
              | _ => none) with
      | some dt, some bm, some rr, some mm, some uc =>
        some { ver := n, domainTags := dt, banMacros := bm,
               removalReasons := rr, modMacros := mm, usernoteColors := uc }
      | _, _, _, _, _ => none
    | _ => none
  | _ => none

/-- Render a domain tag back to JSON. -/
def domainTagToJson (t : RawDomainTag) : Json :=
  Json.obj [("name", Json.str t.name), ("color", Json.str t.color)]

/-- Render the ban macro back to JSON. -/
def banMacroToJson (m : RawBanMacro) : Json :=
  Json.obj [("banNote", Json.str m.banNote), ("banMessage", Json.str m.banMessage)]

/-- Render a removal reason back to JSON. -/
def removalReasonToJson (r : RawRemovalReason) : Json :=
  Json.obj [("title", Json.str r.title), ("text", Json.str r.text),
    ("flairText", Json.str r.flairText), ("flairCSS", Json.str r.flairCSS),
    ("removePosts", Json.bool r.removePosts),
    ("removeComments", Json.bool r.removeComments)]

/-- Render the removal-reason section back to JSON. -/
def removalReasonsToJson (r : RawRemovalReasonSettingsAndReasons) : Json :=
  Json.obj [("header", Json.str r.header), ("footer", Json.str r.footer),
    ("pmsubject", Json.str r.pmsubject), ("logreason", Json.str r.logreason),
    ("logsub", Json.str r.logsub), ("logtitle", Json.str r.logtitle),
    ("bantitle", Json.str r.bantitle), ("getfrom", Json.str r.getfrom),
    ("removalOption", Json.str r.removalOption),
    ("typeReply", Json.str r.typeReply),
    ("typeStickied", Json.bool r.typeStickied),
    ("typeCommentAsSubreddit", Json.bool r.typeCommentAsSubreddit),
    ("typeLockThread", Json.bool r.typeLockThread),
    ("typeLockComment", Json.bool r.typeLockComment),
    ("typeAsSub", Json.bool r.typeAsSub),
    ("autoArchive", Json.bool r.autoArchive),
    ("reasons", Json.arr (r.reasons.map removalReasonToJson))]

/-- Render a mod macro back to JSON. -/
def modMacroToJson (m : RawModMacro) : Json :=
  Json.obj [("title", Json.str m.title), ("text", Json.str m.text),
    ("distinguish", Json.bool m.distinguish), ("ban", Json.bool m.ban),
    ("mute", Json.bool m.mute), ("remove", Json.bool m.remove),
    ("approve", Json.bool m.approve), ("lockthread", Json.bool m.lockthread),
    ("sticky", Json.bool m.sticky),
    ("archivemodmail", Json.bool m.archivemodmail),
    ("highlightmodmail", Json.bool m.highlightmodmail)]

/-- Render a usernote type back to JSON. -/
def noteTypeToJson (t : RawUsernoteType) : Json :=
  Json.obj [("key", Json.str t.key), ("color", Json.str t.color),
    ("text", Json.str t.text)]

/-- Render an optional section: `JSON.stringify` omits absent
(`undefined`-valued) properties. -/
def optFieldToJson {α : Type} (key : String) (f : α → Json) :
    Option α → List (String × Json)
  | none => []
  | some a => [(key, f a)]

/-- Render the typed document back to JSON, as `toString`/`JSON.stringify`
does: the required `ver` field followed by every present optional section,
absent sections omitted (never emitted as `null`). -/
def configToJson (d : RawSubredditConfig) : Json :=
  Json.obj (("ver", Json.num d.ver) ::
    (optFieldToJson "domainTags" (fun l => Json.arr (l.map domainTagToJson)) d.domainTags ++
     optFieldToJson "banMacros" banMacroToJson d.banMacros ++
     optFieldToJson "removalReasons" removalReasonsToJson d.removalReasons ++
     optFieldToJson "modMacros" (fun l => Json.arr (l.map modMacroToJson)) d.modMacros ++
     optFieldToJson "usernoteColors" (fun l => Json.arr (l.map noteTypeToJson)) d.usernoteColors))

/-- Method `getAllNoteTypes` (SubredditConfig.ts lines 47-59): if the config
does not specify any note types (absent field or empty array), a copy of the
default set is written into the config so the unambiguous form is written
back; the (possibly just materialized) note types are returned together with
the updated document. -/
def getAllNoteTypes (data : RawSubredditConfig) :
    List RawUsernoteType × RawSubredditConfig :=
  match data.usernoteColors with
  | some types =>
    if types.length = 0 then
      let defaultTypes := DEFAULT_USERNOTE_TYPES.map
        (fun noteType => { key := noteType.key, color := noteType.color, text := noteType.text })
      (defaultTypes, { data with usernoteColors := some defaultTypes })
    else
      (types, data)
  | none =>
    let defaultTypes := DEFAULT_USERNOTE_TYPES.map
      (fun noteType => { key := noteType.key, color := noteType.color, text := noteType.text })
    (defaultTypes, { data with usernoteColors := some defaultTypes })

/-- Method `getNoteType` (lines 79-82): linear search, by key, over the note
types returned by `getAllNoteTypes`. -/
def getNoteType (key : String) (data : RawSubredditConfig) :
    Option RawUsernoteType × RawSubredditConfig :=
  let r := getAllNoteTypes data
  (r.1.find? (fun noteType => noteType.key == key), r.2)

/-- Method `getDomainTags` (lines 95-97): the stored tags, or `[]` when the
field is absent. -/
def getDomainTags (data : RawSubredditConfig) :
    List RawDomainTag × RawSubredditConfig :=
  (data.domainTags.getD [], data)

/-- Method `getBanMacro` (lines 111-113): the stored `banMacros` field,
`undefined` when absent; no default is synthesized. -/
def getBanMacro (data : RawSubredditConfig) :
    Option RawBanMacro × RawSubredditConfig :=
  (data.banMacros, data)

/-- Method `getRemovalReasonSettings` (lines 126-149): the default settings
record when the section is absent; otherwise a new record listing the scalar
fields (without `reasons`).  Note the source copies `typeLockComment` into
`typeLockThread` (line 144). -/
def getRemovalReasonSettings (data : RawSubredditConfig) :
    RawRemovalReasonSettings × RawSubredditConfig :=
  match data.removalReasons with
  | none => (DEFAULT_REMOVAL_REASONS, data)
  | some rr =>
    ({ header := rr.header
       footer := rr.footer
       pmsubject := rr.pmsubject
       logreason := rr.logreason
       logsub := rr.logsub
       logtitle := rr.logtitle
       bantitle := rr.bantitle
       getfrom := rr.getfrom
       removalOption := rr.removalOption
       typeReply := rr.typeReply
       typeStickied := rr.typeStickied
       typeCommentAsSubreddit := rr.typeCommentAsSubreddit
       typeLockThread := rr.typeLockComment
       typeLockComment := rr.typeLockComment
       typeAsSub := rr.typeAsSub
       autoArchive := rr.autoArchive }, data)

/-- Method `getRemovalReasons` (lines 162-168): the stored reasons sequence,
or `[]` when the section is absent. -/
def getRemovalReasons (data : RawSubredditConfig) :
    List RawRemovalReason × RawSubredditConfig :=
  match data.removalReasons with
  | none => ([], data)
  | some rr => (rr.reasons, data)

/-- Method `getModMacros` (lines 182-188): the stored macros, or `[]` when
the field is absent. -/
def getModMacros (data : RawSubredditConfig) :
    List RawModMacro × RawSubredditConfig :=
  match data.modMacros with
  | none => ([], data)
  | some ms => (ms, data)

/-- Method `toJSON` (lines 197-199): returns the wrapped document itself. -/
def toJSON (data : RawSubredditConfig) : RawSubredditConfig :=
  data

theorem migrate_ok_eq {j m : Json}
    (h : migrateConfigToLatestSchema j = Except.ok m) : m = j := by
  unfold migrateConfigToLatestSchema at h
  split at h
  · split at h
    · split at h
      · simp at h
      · exact (Except.ok.inj h).symm
    · exact (Except.ok.inj h).symm
  · exact (Except.ok.inj h).symm

theorem lookupField_cons (a : String) (b : Json) (rest : List (String × Json))
    (key : String) :
    lookupField ((a, b) :: rest) key =
      if a = key then some b else lookupField rest key := rfl

theorem replaceField_cons (a : String) (b : Json) (rest : List (String × Json))
    (key : String) (v : Json) :
    replaceField ((a, b) :: rest) key v =
      (if a = key then (a, v) else (a, b)) :: replaceField rest key v := by
  by_cases ha : a = key
  · simp [replaceField, ha]
  · simp [replaceField, ha]

theorem lookupField_replaceField_self {fs : List (String × Json)} {k : String}
    {w : Json} (v : Json) (h : lookupField fs k = some w) :
    lookupField (replaceField fs k v) k = some v := by
  induction fs with
  | nil => simp [lookupField] at h
  | cons p rest ih =>
    obtain ⟨a, b⟩ := p
    rw [replaceField_cons]
    by_cases ha : a = k
    · rw [if_pos ha, lookupField_cons, if_pos ha]
    · rw [lookupField_cons, if_neg ha] at h
      rw [if_neg ha, lookupField_cons, if_neg ha]
      exact ih h

theorem lookupField_replaceField_ne {k k' : String} (fs : List (String × Json))
    (v : Json) (h : k' ≠ k) :
    lookupField (replaceField fs k v) k' = lookupField fs k' := by
  induction fs with
  | nil => simp [replaceField, lookupField]
  | cons p rest ih =>
    obtain ⟨a, b⟩ := p
    rw [replaceField_cons, lookupField_cons]
    by_cases ha : a = k
    · have hkk' : ¬ a = k' := fun hc => h (ha ▸ hc ▸ rfl)
      rw [if_pos ha]
      rw [lookupField_cons, if_neg hkk', if_neg hkk']
      exact ih
    · rw [if_neg ha, lookupField_cons]
      by_cases ha' : a = k'
      · rw [if_pos ha', if_pos ha']
      · rw [if_neg ha', if_neg ha']
        exact ih

theorem lookupField_filter_keep {fs : List (String × Json)} {k : String}
    {v : Json} (h : lookupField fs k = some v) (hv : v.isNull = false) :
    lookupField (fs.filter keepNonNull) k = some v := by
  induction fs with
  | nil => simp [lookupField] at h
  | cons p rest ih =>
    obtain ⟨a, b⟩ := p
    by_cases ha : a = k
    · subst ha
      simp only [lookupField, if_pos rfl] at h
      obtain rfl := Option.some.inj h
      simp [List.filter_cons, keepNonNull, hv, lookupField]
    · simp only [lookupField, if_neg ha] at h
      cases hb : b.isNull with
      | false =>
        simp only [List.filter_cons, keepNonNull]
        simp only [hb, Bool.not_false, if_pos]
        simp only [lookupField, if_neg ha]
        exact ih h
      | true =>
        simp only [List.filter_cons, keepNonNull]
        simp only [hb, Bool.not_true]
        simp only [Bool.false_eq_true, if_false]
        exact ih h

theorem validatePropAt_lookup_ne {fs fs' : List (String × Json)} {k k' : String}
    {f : Json → Except String Json}
    (h : validatePropAt fs k f = Except.ok fs') (hne : k' ≠ k) :
    lookupField fs' k' = lookupField fs k' := by
  unfold validatePropAt at h
  split at h
  · obtain rfl := Except.ok.inj h
    rfl
  · split at h
    · simp at h
    · obtain rfl := Except.ok.inj h
      exact lookupField_replaceField_ne fs _ hne

theorem validatePropAt_lookup_self {fs fs' : List (String × Json)} {k : String}
    {v : Json} {f : Json → Except String Json}
    (hv : lookupField fs k = some v) (h : validatePropAt fs k f = Except.ok fs') :
    ∃ v', f v = Except.ok v' ∧ lookupField fs' k = some v' := by
  unfold validatePropAt at h
  split at h
  · rename_i hnone
    rw [hv] at hnone
    exact absurd hnone (by simp)
  · rename_i u hu
    rw [hv] at hu
    obtain rfl := Option.some.inj hu
    split at h
    · simp at h
    · rename_i v' hf
      obtain rfl := Except.ok.inj h
      exact ⟨v', hf, lookupField_replaceField_self v' hv⟩

theorem validateVerField_ok {v v' : Json} (h : validateVerField v = Except.ok v') :
    ∃ n : Int, v' = Json.num n ∧ EARLIEST_KNOWN_CONFIG_SCHEMA ≤ n ∧
      n ≤ LATEST_KNOWN_CONFIG_SCHEMA := by
  unfold validateVerField at h
  split at h
  · rename_i n
    split at h
    · simp at h
    · split at h
      · simp at h
      · rename_i h1 h2
        exact ⟨n, (Except.ok.inj h).symm, le_of_not_lt h1, le_of_not_lt h2⟩
  · rename_i s
    split at h
    · rename_i n hs
      split at h
      · simp at h
      · split at h
        · simp at h
        · rename_i h1 h2
          exact ⟨n, (Except.ok.inj h).symm, le_of_not_lt h1, le_of_not_lt h2⟩
    · simp at h
  · simp at h

theorem checkRequiredRoot_ok {fields : List (String × Json)}
    (h : checkRequiredRoot fields = Except.ok ()) :
    ∃ w, lookupField fields "ver" = some w := by
  unfold checkRequiredRoot checkRequired at h
  split at h
  · rename_i w hw
    exact ⟨w, hw⟩
  · simp at h

theorem checkAdditional_error_of_bad {fields : List (String × Json)}
    {path : String} {allowed : String → Bool} {k : String} {v : Json}
    (hmem : (k, v) ∈ fields) (hbad : allowed k = false) :
    checkAdditional path allowed fields =
      Except.error (path ++ " must NOT have additional properties") := by
  have hall : fields.all (fun p => allowed p.1) = false := by
    by_contra hc
    have htrue : fields.all (fun p => allowed p.1) = true := by
      cases hx : fields.all (fun p => allowed p.1) with
      | true => rfl
      | false => exact absurd hx hc
    have h2 : allowed k = true := List.all_eq_true.mp htrue (k, v) hmem
    rw [h2] at hbad
    exact Bool.noConfusion hbad
  unfold checkAdditional
  simp [hall]

theorem validateNoteTypeElem_str (path s : String) :
    validateNoteTypeElem path (Json.str s) =
      Except.error (path ++ " must be object") := rfl

theorem validateItems_cons_error {path : String}
    {f : String → Json → Except String Json} {i : Nat} {x : Json}
    {rest : List Json} {e : String}
    (hfx : f (path ++ "/" ++ toString i) x = Except.error e) :
    validateItems path f i (x :: rest) = Except.error e := by
  unfold validateItems
  rw [hfx]

theorem validateItems_cons_ok_error {path : String}
    {f : String → Json → Except String Json} {i : Nat} {x x' : Json}
    {rest : List Json} {e : String}
    (hfx : f (path ++ "/" ++ toString i) x = Except.ok x')
    (hrest : validateItems path f (i + 1) rest = Except.error e) :
    validateItems path f i (x :: rest) = Except.error e := by
  unfold validateItems
  rw [hfx, hrest]

theorem validateItems_ok_mem (path : String) (f : String → Json → Except String Json) :
    ∀ (start : Nat) (items : List Json) (out : List Json),
      validateItems path f start items = Except.ok out →
      ∀ x ∈ items, ∃ p v', f p x = Except.ok v' := by
  intro start items
  induction items generalizing start with
  | nil => intro out h x hx; simp at hx
  | cons y rest ih =>
    intro out h x hx
    unfold validateItems at h
    split at h
    · simp at h
    · rename_i y' hfy
      split at h
      · simp at h
      · rename_i rest' hrest
        cases hx with
        | head => exact ⟨_, y', hfy⟩
        | tail _ hx' => exact ih (start + 1) rest' hrest x hx'

theorem validateItems_error_at (path : String)
    (f : String → Json → Except String Json)
    (hf : ∀ p s, f p (Json.str s) = Except.error (p ++ " must be object")) :
    ∀ (start i : Nat) (items : List Json) (s : String) (hi : i < items.length),
      (∀ j (hj : j < i), (f (path ++ "/" ++ toString (start + j))
          (items.get ⟨j, Nat.lt_trans hj hi⟩)).isOk = true) →
      items.get ⟨i, hi⟩ = Json.str s →
      validateItems path f start items =
        Except.error (path ++ "/" ++ toString (start + i) ++ " must be object") := by
  intro start i items
  induction items generalizing start i with
  | nil => intro s hi; exact absurd hi (by simp)
  | cons y rest ih =>
    intro s hi hpre hstr
    cases i with
    | zero =>
      have hy : y = Json.str s := hstr
      rw [Nat.add_zero]
      exact validateItems_cons_error (by rw [hy]; exact hf _ s)
    | succ i' =>
      have h0 : (f (path ++ "/" ++ toString start) y).isOk = true :=
        hpre 0 (Nat.succ_pos i')
      cases hfy : f (path ++ "/" ++ toString start) y with
      | error e =>
        rw [hfy] at h0
        simp [Except.isOk, Except.toBool] at h0
      | ok y' =>
        have hi' : i' < rest.length := Nat.lt_of_succ_lt_succ hi
        have hpre' : ∀ j (hj : j < i'),
            (f (path ++ "/" ++ toString ((start + 1) + j))
              (rest.get ⟨j, Nat.lt_trans hj hi'⟩)).isOk = true := by
          intro j hj
          have hx := hpre (j + 1) (Nat.succ_lt_succ hj)
          have harith : start + (j + 1) = (start + 1) + j := by omega
          rw [harith] at hx
          exact hx
        have hrec := ih (start + 1) i' s hi' hpre' hstr
        have harith : (start + 1) + i' = start + (i' + 1) := by omega
        rw [harith] at hrec
        exact validateItems_cons_ok_error hfy hrec

theorem find?_prefix_some {α : Type} (p : α → Bool) (a : α) :
    ∀ (l₁ l₂ : List α), (∀ x ∈ l₁, p x = false) → p a = true →
      (l₁ ++ a :: l₂).find? p = some a := by
  intro l₁
  induction l₁ with
  | nil =>
    intro l₂ _ hpa
    exact List.find?_cons_of_pos l₂ hpa
  | cons c t ih =>
    intro l₂ hall hpa
    have hc : p c = false := hall c (by simp)
    rw [List.cons_append, List.find?_cons_of_neg _ (by simp [hc])]
    exact ih l₂ (fun x hx => hall x (by simp [hx])) hpa

theorem find?_some_decomp {α : Type} (p : α → Bool) (l : List α) (a : α)
    (h : l.find? p = some a) :
    p a = true ∧ ∃ l₁ l₂, l = l₁ ++ a :: l₂ ∧ ∀ x ∈ l₁, p x = false := by
  induction l with
  | nil => simp [List.find?] at h
  | cons c t ih =>
    cases hc : p c with
    | true =>
      rw [List.find?_cons_of_pos _ hc] at h
      obtain rfl := Option.some.inj h
      exact ⟨hc, [], t, rfl, by simp⟩
    | false =>
      rw [List.find?_cons_of_neg _ (by simp [hc])] at h
      obtain ⟨hpa, l₁, l₂, ht, hall⟩ := ih h
      refine ⟨hpa, c :: l₁, l₂, by rw [List.cons_append, ht], ?_⟩
      intro x hx
      rcases List.mem_cons.mp hx with hx' | hx'
      · rw [hx']; exact hc
      · exact hall x hx'

theorem eseq_ok_inv {α : Type} {c : Except String Unit} {next : Except String α}
    {v : α} (h : eseq c next = Except.ok v) :
    c = Except.ok () ∧ next = Except.ok v := by
  cases c with
  | error e => simp [eseq] at h
  | ok u => exact ⟨by cases u; rfl, h⟩

theorem construct_ok_inv {j d : Json} (h : construct j = Except.ok d) :
    migrateConfigToLatestSchema j = Except.ok j ∧
    ∃ v, validateRoot j = Except.ok v ∧ d = normalizeTopLevel v := by
  unfold construct at h
  split at h
  · simp at h
  · rename_i m hm
    split at h
    · simp at h
    · rename_i v hv
      obtain rfl := migrate_ok_eq hm
      exact ⟨hm, v, hv, (Except.ok.inj h).symm⟩

theorem validateRoot_ok_inv {j v : Json} (h : validateRoot j = Except.ok v) :
    ∃ fields fields', j = Json.obj fields ∧
      checkRequiredRoot fields = Except.ok () ∧
      checkAdditionalRoot fields = Except.ok () ∧
      validateProps fields = Except.ok fields' ∧
      v = Json.obj fields' := by
  unfold validateRoot at h
  split at h
  · rename_i fields
    obtain ⟨hreq, h⟩ := eseq_ok_inv h
    obtain ⟨hadd, h⟩ := eseq_ok_inv h
    split at h
    · simp at h
    · rename_i fields' hp
      exact ⟨fields, fields', rfl, hreq, hadd, hp, (Except.ok.inj h).symm⟩
  · simp at h

theorem validateProps_ok_inv {fields out : List (String × Json)}
    (h : validateProps fields = Except.ok out) :
    ∃ f5, validatePropsPre fields = Except.ok f5 ∧
      validatePropAt f5 "usernoteColors" validateUsernoteColorsField = Except.ok out := by
  unfold validateProps at h
  split at h
  · simp at h
  · rename_i f5 h5
    exact ⟨f5, h5, h⟩

theorem validatePropsPre_ok_inv {fields f5 : List (String × Json)}
    (h : validatePropsPre fields = Except.ok f5) :
    ∃ f1 f2 f3 f4,
      validatePropAt fields "ver" validateVerField = Except.ok f1 ∧
      validatePropAt f1 "domainTags" validateDomainTagsField = Except.ok f2 ∧
      validatePropAt f2 "banMacros" validateBanMacrosField = Except.ok f3 ∧
      validatePropAt f3 "removalReasons" validateRemovalReasonsField = Except.ok f4 ∧
      validatePropAt f4 "modMacros" validateModMacrosField = Except.ok f5 := by
  unfold validatePropsPre at h
  split at h
  · simp at h
  · rename_i f1 h1
    split at h
    · simp at h
    · rename_i f2 h2
      split at h
      · simp at h
      · rename_i f3 h3
        split at h
        · simp at h
        · rename_i f4 h4
          split at h
          · simp at h
          · rename_i f5' h5
            obtain rfl := Except.ok.inj h
            exact ⟨f1, f2, f3, f4, h1, h2, h3, h4, h5⟩

theorem normalizeTopLevel_obj (fields : List (String × Json)) :
    normalizeTopLevel (Json.obj fields) = Json.obj (fields.filter keepNonNull) := rfl

/-- The minimal valid document `{"ver": 1}` (the spec's `{"version": latest}`). -/
def minimalConfigJson : Json :=
  Json.obj [("ver", Json.num 1)]

/-- The typed view of the minimal document: every optional section absent. -/
def minimalTypedConfig : RawSubredditConfig :=
  { ver := 1, domainTags := none, banMacros := none, removalReasons := none,
    modMacros := none, usernoteColors := none }

/-- The minimal document after the note-type defaults were materialized. -/
def materializedTypedConfig : RawSubredditConfig :=
  { ver := 1, domainTags := none, banMacros := none, removalReasons := none,
    modMacros := none, usernoteColors := some DEFAULT_USERNOTE_TYPES }

/-- A removal-reason section whose `typeLockThread` and `typeLockComment`
settings differ: thread-lock off, comment-lock on. -/
def exampleRemovalReasons : RawRemovalReasonSettingsAndReasons :=
  { header := "Header", footer := "Footer", pmsubject := "PM Subject",
    logreason := "", logsub := "", logtitle := "", bantitle := "",
    getfrom := "", removalOption := "force", typeReply := "both",
    typeStickied := true, typeCommentAsSubreddit := true,
    typeLockThread := false, typeLockComment := true, typeAsSub := true,
    autoArchive := true,
    reasons := [⟨"A", "B", "D", "C", true, true⟩] }

/-- A document carrying `exampleRemovalReasons`. -/
def exampleConfigWithReasons : RawSubredditConfig :=
  { ver := 1, domainTags := none, banMacros := none,
    removalReasons := some exampleRemovalReasons, modMacros := none,
    usernoteColors := none }

/-- Claim C1: for every document with a removal-reason section,
`getRemovalReasonSettings()` is claimed to return a record whose every
scalar field — including `typeLockThread` — equals the same-named stored
field.  The code contradicts this: line 144 of SubredditConfig.ts sources
`typeLockThread` from `typeLockComment`.  At the document below the stored
`typeLockThread` is `false` and the stored `typeLockComment` is `true`, yet
the accessor returns `typeLockThread = true`, while every other scalar field
matches and `getRemovalReasons()` returns the stored sequence unmodified. -/
theorem getRemovalReasonSettings_typeLockThread_bug :
    exampleConfigWithReasons.removalReasons = some exampleRemovalReasons ∧
    exampleRemovalReasons.typeLockThread = false ∧
    ( getRemovalReasonSettings exampleConfigWithReasons).1.typeLockThread = true ∧
    ( getRemovalReasonSettings exampleConfigWithReasons).1.typeLockComment = true ∧
    ( getRemovalReasonSettings exampleConfigWithReasons).1.header =
      exampleRemovalReasons.header ∧
    ( getRemovalReasons exampleConfigWithReasons).1 = exampleRemovalReasons.reasons :=
  ⟨rfl, rfl, rfl, rfl, rfl, rfl⟩

/-- Claim C2: constructing from the minimal document `{"ver": 1}` (note-type
field absent), the first `getAllNoteTypes()` call returns the built-in
default sequence and writes it into the wrapped document, so `toJSON`
followed by serialization renders the sequence verbatim and the field is no
longer absent. -/
theorem minimal_config_noteTypes_default_materialization :
    construct minimalConfigJson = Except.ok (Json.obj [("ver", Json.num 1)]) ∧
    decodeConfig (Json.obj [("ver", Json.num 1)]) = some minimalTypedConfig ∧
    getAllNoteTypes minimalTypedConfig =
      (DEFAULT_USERNOTE_TYPES, materializedTypedConfig) ∧
    materializedTypedConfig.usernoteColors = some DEFAULT_USERNOTE_TYPES ∧
    configToJson (toJSON materializedTypedConfig) =
      Json.obj [("ver", Json.num 1),
        ("usernoteColors", Json.arr (DEFAULT_USERNOTE_TYPES.map noteTypeToJson))] :=
  ⟨rfl, rfl, rfl, rfl, rfl⟩

/-- Claim C3: a stored note-type field holding an explicitly empty sequence
behaves exactly like the absent case: `getAllNoteTypes()` overwrites it with
the defaults and returns them, so an empty note-type list never survives the
accessor. -/
theorem empty_noteTypes_overwritten_with_defaults (cfg : RawSubredditConfig)
    (h : cfg.usernoteColors = some []) :
    getAllNoteTypes cfg = getAllNoteTypes { cfg with usernoteColors := none } ∧
    (getAllNoteTypes cfg).1 = DEFAULT_USERNOTE_TYPES ∧
    (getAllNoteTypes cfg).2.usernoteColors = some DEFAULT_USERNOTE_TYPES ∧
    (getAllNoteTypes cfg).2.usernoteColors ≠ some [] := by
  obtain ⟨v, dt, bm, rr, mm, uc⟩ := cfg
  have h' : uc = some [] := h
  subst h'
  refine ⟨rfl, rfl, rfl, ?_⟩
  have h2 : (getAllNoteTypes
      { ver := v, domainTags := dt, banMacros := bm, removalReasons := rr,
        modMacros := mm,
        usernoteColors := some ([] : List RawUsernoteType) }).2.usernoteColors =
      some DEFAULT_USERNOTE_TYPES := rfl
  rw [h2]
  decide

/-- Witness for C3 at a concrete document with an empty note-type list. -/
theorem empty_noteTypes_overwritten_with_defaults_witness :
    getAllNoteTypes
        { ver := 1, domainTags := none, banMacros := none,
          removalReasons := none, modMacros := none, usernoteColors := some [] } =
      getAllNoteTypes
        { ver := 1, domainTags := none, banMacros := none,
          removalReasons := none, modMacros := none, usernoteColors := none } ∧
    (getAllNoteTypes
        { ver := 1, domainTags := none, banMacros := none,
          removalReasons := none, modMacros := none,
          usernoteColors := some [] }).1 = DEFAULT_USERNOTE_TYPES ∧
    (getAllNoteTypes
        { ver := 1, domainTags := none, banMacros := none,
          removalReasons := none, modMacros := none,
          usernoteColors := some [] }).2.usernoteColors =
      some DEFAULT_USERNOTE_TYPES ∧
    (getAllNoteTypes
        { ver := 1, domainTags := none, banMacros := none,
          removalReasons := none, modMacros := none,
          usernoteColors := some [] }).2.usernoteColors ≠ some [] :=
  empty_noteTypes_overwritten_with_defaults _ rfl

/-- Claim C9: for the accessor built from the minimal document, domain tags
come back empty and the ban macro comes back absent; the ban-macro accessor
never synthesizes a default (it always returns the stored field). -/
theorem minimal_config_domainTags_banMacro_absent :
    construct minimalConfigJson = Except.ok (Json.obj [("ver", Json.num 1)]) ∧
    decodeConfig (Json.obj [("ver", Json.num 1)]) = some minimalTypedConfig ∧
    ( getDomainTags minimalTypedConfig).1 = [] ∧
    ( getBanMacro minimalTypedConfig).1 = none ∧
    ∀ d : RawSubredditConfig, ( getBanMacro d).1 = d.banMacros :=
  ⟨rfl, rfl, rfl, rfl, fun _ => rfl⟩

/-- Claim C10: the five non-note-type accessors return the wrapped document
unchanged; `getAllNoteTypes` (and `getNoteType` through it) may update only
the `usernoteColors` field, leaving the other five fields intact. -/
theorem accessors_frame_effect (d : RawSubredditConfig) (key : String) :
    ( getDomainTags d).2 = d ∧
    ( getBanMacro d).2 = d ∧
    ( getRemovalReasonSettings d).2 = d ∧
    ( getRemovalReasons d).2 = d ∧
    ( getModMacros d).2 = d ∧
    ((getAllNoteTypes d).2.ver = d.ver ∧
     (getAllNoteTypes d).2.domainTags = d.domainTags ∧
     (getAllNoteTypes d).2.banMacros = d.banMacros ∧
     (getAllNoteTypes d).2.removalReasons = d.removalReasons ∧
     (getAllNoteTypes d).2.modMacros = d.modMacros) ∧
    ( getNoteType key d).2 = (getAllNoteTypes d).2 := by
  obtain ⟨v, dt, bm, rr, mm, uc⟩ := d
  refine ⟨rfl, rfl, ?_, ?_, ?_, ?_, rfl⟩
  · cases rr <;> rfl
  · cases rr <;> rfl
  · cases mm <;> rfl
  · cases uc with
    | none => exact ⟨rfl, rfl, rfl, rfl, rfl⟩
    | some l =>
      cases l with
      | nil => exact ⟨rfl, rfl, rfl, rfl, rfl⟩
      | cons a t => exact ⟨rfl, rfl, rfl, rfl, rfl⟩

/-- Claim C8: `getNoteType(k)` is a linear search over the note types
obtained after default materialization: it returns `undefined` exactly when
no record's key equals `k`, and returns `some t` exactly when `t` is the
first record whose key equals `k` (duplicates resolve to the earliest
match). -/
theorem getNoteType_first_match (data : RawSubredditConfig) (key : String) :
    (( getNoteType key data).1 = none ↔
      ∀ t ∈ (getAllNoteTypes data).1, t.key ≠ key) ∧
    ∀ t : RawUsernoteType,
      (( getNoteType key data).1 = some t ↔
        t.key = key ∧ ∃ l₁ l₂, (getAllNoteTypes data).1 = l₁ ++ t :: l₂ ∧
          ∀ u ∈ l₁, u.key ≠ key) := by
  have hfind : ( getNoteType key data).1 =
      (getAllNoteTypes data).1.find? (fun noteType => noteType.key == key) := rfl
  constructor
  · rw [hfind, List.find?_eq_none]
    constructor
    · intro h t ht
      have h2 := h t ht
      exact fun hc => h2 (beq_iff_eq.mpr hc)
    · intro h t ht
      exact fun hc => h t ht (beq_iff_eq.mp hc)
  · intro t
    rw [hfind]
    constructor
    · intro h
      obtain ⟨hpt, l₁, l₂, heq, hall⟩ :=
        find?_some_decomp (fun noteType => noteType.key == key) _ t h
      refine ⟨beq_iff_eq.mp hpt, l₁, l₂, heq, ?_⟩
      intro u hu
      exact beq_eq_false_iff_ne.mp (hall u hu)
    · rintro ⟨hkey, l₁, l₂, heq, hall⟩
      rw [heq]
      exact find?_prefix_some _ t l₁ l₂
        (fun x hx => beq_eq_false_iff_ne.mpr (hall x hx))
        (beq_iff_eq.mpr hkey)

/-- Witness for C8 on the test fixture with note types keyed a, d, g: key d
finds the middle record, and through the none-characterization key j is
absent. -/
theorem getNoteType_first_match_witness :
    ( getNoteType "d"
        { ver := 1, domainTags := none, banMacros := none,
          removalReasons := none, modMacros := none,
          usernoteColors := some [⟨"a", "b", "c"⟩, ⟨"d", "e", "f"⟩,
            ⟨"g", "h", "i"⟩] }).1 = some ⟨"d", "e", "f"⟩ :=
  ((getNoteType_first_match
      { ver := 1, domainTags := none, banMacros := none,
        removalReasons := none, modMacros := none,
        usernoteColors := some [⟨"a", "b", "c"⟩, ⟨"d", "e", "f"⟩,
          ⟨"g", "h", "i"⟩] } "d").2 ⟨"d", "e", "f"⟩).mpr
    ⟨rfl, [⟨"a", "b", "c"⟩], [⟨"g", "h", "i"⟩], by decide, by decide⟩

/-- Claim C6: a document whose numeric version lies outside the known range
is rejected with a hard error before validation, producing no accessor; and
every successfully constructed document carries a version inside the known
range. -/
theorem version_range_enforced :
    (∀ (fields : List (String × Json)) (n : Int),
        lookupField fields "ver" = some (Json.num n) →
        (n < EARLIEST_KNOWN_CONFIG_SCHEMA ∨ LATEST_KNOWN_CONFIG_SCHEMA < n) →
        (construct (Json.obj fields)).isOk = false) ∧
    (∀ (j d : Json), construct j = Except.ok d →
        ∃ fs n, d = Json.obj fs ∧ lookupField fs "ver" = some (Json.num n) ∧
          EARLIEST_KNOWN_CONFIG_SCHEMA ≤ n ∧ n ≤ LATEST_KNOWN_CONFIG_SCHEMA) := by
  constructor
  · intro fields n hlook hrange
    have hm : migrateConfigToLatestSchema (Json.obj fields) =
        Except.error "config version is out of range" := by
      simp only [migrateConfigToLatestSchema, hlook]
      rw [if_pos hrange]
    simp only [construct, hm]
    rfl
  · intro j d h
    obtain ⟨hm, v, hv, rfl⟩ := construct_ok_inv h
    obtain ⟨fields, fields', rfl, hreq, hadd, hp, rfl⟩ := validateRoot_ok_inv hv
    obtain ⟨w, hw⟩ := checkRequiredRoot_ok hreq
    obtain ⟨f5, hpre5, hucstep⟩ := validateProps_ok_inv hp
    obtain ⟨f1, f2, f3, f4, h1, h2, h3, h4, h5⟩ := validatePropsPre_ok_inv hpre5
    obtain ⟨v1, hfv, hlook1⟩ := validatePropAt_lookup_self hw h1
    obtain ⟨n, rfl, hn1, hn2⟩ := validateVerField_ok hfv
    have l2 : lookupField f2 "ver" = some (Json.num n) := by
      rw [validatePropAt_lookup_ne h2 (by decide)]; exact hlook1
    have l3 : lookupField f3 "ver" = some (Json.num n) := by
      rw [validatePropAt_lookup_ne h3 (by decide)]; exact l2
    have l4 : lookupField f4 "ver" = some (Json.num n) := by
      rw [validatePropAt_lookup_ne h4 (by decide)]; exact l3
    have l5 : lookupField f5 "ver" = some (Json.num n) := by
      rw [validatePropAt_lookup_ne h5 (by decide)]; exact l4
    have l6 : lookupField fields' "ver" = some (Json.num n) := by
      rw [validatePropAt_lookup_ne hucstep (by decide)]; exact l5
    exact ⟨fields'.filter keepNonNull, n, normalizeTopLevel_obj fields',
      lookupField_filter_keep l6 rfl, hn1, hn2⟩

/-- Witness for C6: version 2 (above the range) and version 0 (below the
range) are both rejected. -/
theorem version_range_enforced_witness :
    (construct (Json.obj [("ver", Json.num 2)])).isOk = false ∧
    (construct (Json.obj [("ver", Json.num 0)])).isOk = false :=
  ⟨version_range_enforced.1 _ 2 rfl (Or.inr (by decide)),
   version_range_enforced.1 _ 0 rfl (Or.inl (by decide))⟩

/-- Claim C7: after every successful construction, no top-level field of the
wrapped document is the null sentinel; the normalization step keeps exactly
the non-null validator-output bindings, verbatim (so nested values are
untouched), and serialization of the result therefore renders only the
present, non-null fields. -/
theorem no_top_level_null_after_construction (j d : Json)
    (h : construct j = Except.ok d) :
    (topBindings d).all keepNonNull = true ∧
    ∃ fs, validateRoot j = Except.ok (Json.obj fs) ∧
      d = Json.obj (fs.filter keepNonNull) := by
  obtain ⟨hm, v, hv, rfl⟩ := construct_ok_inv h
  obtain ⟨fields, fields', rfl, hreq, hadd, hp, rfl⟩ := validateRoot_ok_inv hv
  refine ⟨?_, fields', hv, normalizeTopLevel_obj fields'⟩
  rw [normalizeTopLevel_obj]
  rw [show topBindings (Json.obj (fields'.filter keepNonNull)) =
      fields'.filter keepNonNull from rfl]
  exact List.all_eq_true.mpr (fun x hx => (List.mem_filter.mp hx).2)

/-- Witness for C7 at the minimal document. -/
theorem no_top_level_null_after_construction_witness :
    construct minimalConfigJson = Except.ok (Json.obj [("ver", Json.num 1)]) ∧
    (topBindings (Json.obj [("ver", Json.num 1)])).all keepNonNull = true :=
  ⟨rfl, (no_top_level_null_after_construction minimalConfigJson
    (Json.obj [("ver", Json.num 1)]) rfl).1⟩

/-- Counterexample to claim C4 as stated: the document
`{"ver": 5, "extra": true}` has an unknown top-level key, but construction
fails with the version-range error raised before validation, not with the
"must NOT have additional properties" error the claim requires. -/
theorem additionalProperty_error_counterexample :
    construct (Json.obj [("ver", Json.num 5), ("extra", Json.bool true)]) =
      Except.error "config version is out of range" ∧
    ("config version is out of range" : String) ≠
      "data must NOT have additional properties" :=
  ⟨rfl, by decide⟩

/-- Claim C4, amended: a document with an unknown top-level key always fails
construction (no accessor is produced); and whenever the required version
field is present and not numerically out of range — so the pipeline reaches
validation — the reported error is the root-addressed "must NOT have
additional properties" error. -/
theorem additionalProperty_always_fails_construction :
    (∀ (fields : List (String × Json)) (k : String) (v : Json),
        (k, v) ∈ fields → isRootKey k = false →
        (construct (Json.obj fields)).isOk = false) ∧
    (∀ (fields : List (String × Json)) (k : String) (v : Json),
        (k, v) ∈ fields → isRootKey k = false →
        (∃ w, lookupField fields "ver" = some w) →
        (∀ n : Int, lookupField fields "ver" = some (Json.num n) →
          EARLIEST_KNOWN_CONFIG_SCHEMA ≤ n ∧ n ≤ LATEST_KNOWN_CONFIG_SCHEMA) →
        construct (Json.obj fields) =
          Except.error "data must NOT have additional properties") := by
  constructor
  · intro fields k v hmem hbad
    cases hm : migrateConfigToLatestSchema (Json.obj fields) with
    | error e =>
      simp only [construct, hm]
      rfl
    | ok m =>
      obtain rfl := migrate_ok_eq hm
      cases hreq : checkRequiredRoot fields with
      | error e =>
        have hvr : validateRoot (Json.obj fields) = Except.error e := by
          simp only [validateRoot]
          rw [hreq]
          simp only [eseq]
        simp only [construct, hm, hvr]
        rfl
      | ok u =>
        cases u
        have hadd : checkAdditionalRoot fields =
            Except.error "data must NOT have additional properties" := by
          unfold checkAdditionalRoot
          exact checkAdditional_error_of_bad hmem hbad
        have hvr : validateRoot (Json.obj fields) =
            Except.error "data must NOT have additional properties" := by
          simp only [validateRoot]
          rw [hreq]
          simp only [eseq]
          rw [hadd]
        simp only [construct, hm, hvr]
        rfl
  · intro fields k v hmem hbad hver hrange
    obtain ⟨w, hw⟩ := hver
    have hm : migrateConfigToLatestSchema (Json.obj fields) =
        Except.ok (Json.obj fields) := by
      cases w with
      | num n =>
        have hb := hrange n hw
        simp only [migrateConfigToLatestSchema, hw]
        rw [if_neg (fun hc => hc.elim
          (fun hlt => absurd hb.1 (not_le.mpr hlt))
          (fun hgt => absurd hb.2 (not_le.mpr hgt)))]
      | null => simp [migrateConfigToLatestSchema, hw]
      | bool b => simp [migrateConfigToLatestSchema, hw]
      | str s => simp [migrateConfigToLatestSchema, hw]
      | arr l => simp [migrateConfigToLatestSchema, hw]
      | obj o => simp [migrateConfigToLatestSchema, hw]
    have hreq : checkRequiredRoot fields = Except.ok () := by
      simp [checkRequiredRoot, checkRequired, hw]
    have hadd : checkAdditionalRoot fields =
        Except.error "data must NOT have additional properties" := by
      unfold checkAdditionalRoot
      exact checkAdditional_error_of_bad hmem hbad
    have hvr : validateRoot (Json.obj fields) =
        Except.error "data must NOT have additional properties" := by
      simp only [validateRoot]
      rw [hreq]
      simp only [eseq]
      rw [hadd]
    simp only [construct, hm, hvr]

/-- Witness for C4 on the repository's own test input
`{ver: 1, notAValidToolboxConfig: true}`. -/
theorem additionalProperty_always_fails_construction_witness :
    construct (Json.obj [("ver", Json.num 1),
        ("notAValidToolboxConfig", Json.bool true)]) =
      Except.error "data must NOT have additional properties" := by
  apply additionalProperty_always_fails_construction.2 _
    "notAValidToolboxConfig" (Json.bool true)
  · exact List.Mem.tail _ (List.Mem.head _)
  · rfl
  · exact ⟨Json.num 1, rfl⟩
  · intro n hn
    have h1 : Json.num 1 = Json.num n := Option.some.inj hn
    injection h1 with h2
    exact ⟨le_of_eq h2, le_of_eq h2.symm⟩

/-- Counterexample to claim C5 as stated: the document
`{"ver": 5, "usernoteColors": ["red"]}` has a primitive string as a
note-type element, but construction fails with the version-range error
raised before validation ever reaches the element, not with the
element-level path error the claim requires. -/
theorem noteType_string_element_counterexample :
    construct (Json.obj [("ver", Json.num 5),
        ("usernoteColors", Json.arr [Json.str "red"])]) =
      Except.error "config version is out of range" ∧
    ("config version is out of range" : String) ≠
      "data/usernoteColors/0 must be object" :=
  ⟨rfl, by decide⟩

/-- Claim C5, amended: a document whose note-type sequence contains a
primitive string element always fails construction; and when the string
element's check is the first violation the deterministic validation order
reaches — version present at the latest value, no unknown or additional
top-level sections, every earlier note-type element valid — the error names
the element's index under the note-type field and states that the element
must be an object. -/
theorem noteType_string_element_fails_construction :
    (∀ (fields : List (String × Json)) (elems : List Json) (i : Nat)
        (s : String) (hi : i < elems.length),
        lookupField fields "usernoteColors" = some (Json.arr elems) →
        elems.get ⟨i, hi⟩ = Json.str s →
        (construct (Json.obj fields)).isOk = false) ∧
    (∀ (fields : List (String × Json)) (elems : List Json) (i : Nat)
        (s : String) (hi : i < elems.length),
        (∀ p ∈ fields, isRootKey p.1 = true) →
        lookupField fields "ver" = some (Json.num 1) →
        lookupField fields "domainTags" = none →
        lookupField fields "banMacros" = none →
        lookupField fields "removalReasons" = none →
        lookupField fields "modMacros" = none →
        lookupField fields "usernoteColors" = some (Json.arr elems) →
        (∀ j (hj : j < i), (validateNoteTypeElem
            ("data/usernoteColors/" ++ toString j)
            (elems.get ⟨j, Nat.lt_trans hj hi⟩)).isOk = true) →
        elems.get ⟨i, hi⟩ = Json.str s →
        construct (Json.obj fields) =
          Except.error ("data/usernoteColors/" ++ toString i ++ " must be object")) := by
  constructor
  · intro fields elems i s hi hlook hstr
    cases hc : construct (Json.obj fields) with
    | error e => rfl
    | ok d =>
      exfalso
      obtain ⟨hm, v, hv, hd⟩ := construct_ok_inv hc
      obtain ⟨fields0, fields', heq, hreq, hadd, hp, hv'⟩ := validateRoot_ok_inv hv
      obtain rfl : fields0 = fields := (Json.obj.inj heq).symm
      obtain ⟨f5, hpre5, hucstep⟩ := validateProps_ok_inv hp
      obtain ⟨f1, f2, f3, f4, h1, h2, h3, h4, h5⟩ := validatePropsPre_ok_inv hpre5
      have luc : lookupField f5 "usernoteColors" = some (Json.arr elems) := by
        rw [validatePropAt_lookup_ne h5 (by decide),
            validatePropAt_lookup_ne h4 (by decide),
            validatePropAt_lookup_ne h3 (by decide),
            validatePropAt_lookup_ne h2 (by decide),
            validatePropAt_lookup_ne h1 (by decide)]
        exact hlook
      obtain ⟨v', hfv, hluc'⟩ := validatePropAt_lookup_self luc hucstep
      have heq2 : validateUsernoteColorsField (Json.arr elems) =
          (match validateItems "data/usernoteColors" validateNoteTypeElem 0 elems with
           | Except.error e => Except.error e
           | Except.ok items' => Except.ok (Json.arr items')) := rfl
      rw [heq2] at hfv
      have harr : ∃ out, validateItems "data/usernoteColors"
          validateNoteTypeElem 0 elems = Except.ok out := by
        split at hfv
        · simp at hfv
        · rename_i out hout
          exact ⟨out, hout⟩
      obtain ⟨out, hout⟩ := harr
      obtain ⟨p, w, hpw⟩ := validateItems_ok_mem _ _ 0 elems out hout
        (elems.get ⟨i, hi⟩) (List.get_mem elems i hi)
      rw [hstr, validateNoteTypeElem_str] at hpw
      exact absurd hpw (by simp)
  · intro fields elems i s hi hall hver hdt hbm hrr hmm2 huc hprefix hstr
    have hvf : validateVerField (Json.num 1) = Except.ok (Json.num 1) := rfl
    have hm : migrateConfigToLatestSchema (Json.obj fields) =
        Except.ok (Json.obj fields) := by
      simp only [migrateConfigToLatestSchema, hver]
      rw [if_neg (by decide)]
    have hreq : checkRequiredRoot fields = Except.ok () := by
      simp [checkRequiredRoot, checkRequired, hver]
    have hadd : checkAdditionalRoot fields = Except.ok () := by
      unfold checkAdditionalRoot checkAdditional
      rw [if_pos (List.all_eq_true.mpr hall)]
    have h1 : validatePropAt fields "ver" validateVerField =
        Except.ok (replaceField fields "ver" (Json.num 1)) := by
      simp only [validatePropAt, hver, hvf]
    have l1dt : lookupField (replaceField fields "ver" (Json.num 1)) "domainTags" = none := by
      rw [lookupField_replaceField_ne fields _ (by decide)]
      exact hdt
    have l1bm : lookupField (replaceField fields "ver" (Json.num 1)) "banMacros" = none := by
      rw [lookupField_replaceField_ne fields _ (by decide)]
      exact hbm
    have l1rr : lookupField (replaceField fields "ver" (Json.num 1)) "removalReasons" = none := by
      rw [lookupField_replaceField_ne fields _ (by decide)]
      exact hrr
    have l1mm : lookupField (replaceField fields "ver" (Json.num 1)) "modMacros" = none := by
      rw [lookupField_replaceField_ne fields _ (by decide)]
      exact hmm2
    have l1uc : lookupField (replaceField fields "ver" (Json.num 1)) "usernoteColors" =
        some (Json.arr elems) := by
      rw [lookupField_replaceField_ne fields _ (by decide)]
      exact huc
    have h2 : validatePropAt (replaceField fields "ver" (Json.num 1)) "domainTags"
        validateDomainTagsField = Except.ok (replaceField fields "ver" (Json.num 1)) := by
      simp only [validatePropAt, l1dt]
    have h3 : validatePropAt (replaceField fields "ver" (Json.num 1)) "banMacros"
        validateBanMacrosField = Except.ok (replaceField fields "ver" (Json.num 1)) := by
      simp only [validatePropAt, l1bm]
    have h4 : validatePropAt (replaceField fields "ver" (Json.num 1)) "removalReasons"
        validateRemovalReasonsField = Except.ok (replaceField fields "ver" (Json.num 1)) := by
      simp only [validatePropAt, l1rr]
    have h5 : validatePropAt (replaceField fields "ver" (Json.num 1)) "modMacros"
        validateModMacrosField = Except.ok (replaceField fields "ver" (Json.num 1)) := by
      simp only [validatePropAt, l1mm]
    have hpre : validatePropsPre fields =
        Except.ok (replaceField fields "ver" (Json.num 1)) := by
      simp only [validatePropsPre, h1, h2, h3, h4, h5]
    have hpre0 : ∀ j (hj : j < i), (validateNoteTypeElem
        ("data/usernoteColors" ++ "/" ++ toString (0 + j))
        (elems.get ⟨j, Nat.lt_trans hj hi⟩)).isOk = true := by
      intro j hj
      rw [Nat.zero_add]
      exact hprefix j hj
    have hitems0 := validateItems_error_at "data/usernoteColors"
      validateNoteTypeElem (fun p s' => validateNoteTypeElem_str p s')
      0 i elems s hi hpre0 hstr
    rw [Nat.zero_add] at hitems0
    have hucfield : validateUsernoteColorsField (Json.arr elems) =
        Except.error ("data/usernoteColors" ++ "/" ++ toString i ++ " must be object") := by
      have heq2 : validateUsernoteColorsField (Json.arr elems) =
          (match validateItems "data/usernoteColors" validateNoteTypeElem 0 elems with
           | Except.error e => Except.error e
           | Except.ok items' => Except.ok (Json.arr items')) := rfl
      rw [heq2, hitems0]
    have hucstep : validatePropAt (replaceField fields "ver" (Json.num 1))
        "usernoteColors" validateUsernoteColorsField =
        Except.error ("data/usernoteColors" ++ "/" ++ toString i ++ " must be object") := by
      simp only [validatePropAt, l1uc, hucfield]
    have hprops : validateProps fields =
        Except.error ("data/usernoteColors" ++ "/" ++ toString i ++ " must be object") := by
      simp only [validateProps, hpre, hucstep]
    have hvr : validateRoot (Json.obj fields) =
        Except.error ("data/usernoteColors" ++ "/" ++ toString i ++ " must be object") := by
      simp only [validateRoot]
      rw [hreq]
      simp only [eseq]
      rw [hadd]
      simp only [eseq]
      rw [hprops]
    have hfinal : construct (Json.obj fields) =
        Except.error ("data/usernoteColors" ++ "/" ++ toString i ++ " must be object") := by
      simp only [construct, hm, hvr]
    exact hfinal

/-- Witness for C5 on the repository's own test input
`{ver: 1, usernoteColors: ['red', 'green', 'purple']}`: the error is the
tested `data/usernoteColors/0 must be object`. -/
theorem noteType_string_element_fails_construction_witness :
    construct (Json.obj [("ver", Json.num 1),
        ("usernoteColors", Json.arr [Json.str "red", Json.str "green",
          Json.str "purple"])]) =
      Except.error "data/usernoteColors/0 must be object" := by
  have h := noteType_string_element_fails_construction.2
    [("ver", Json.num 1), ("usernoteColors", Json.arr [Json.str "red",
      Json.str "green", Json.str "purple"])]
    [Json.str "red", Json.str "green", Json.str "purple"] 0 "red"
    (by decide)
    (by
      intro p hp
      cases hp with
      | head => rfl
      | tail _ hp2 =>
        cases hp2 with
        | head => rfl
        | tail _ hp3 => cases hp3)
    rfl rfl rfl rfl rfl rfl
    (by intro j hj; exact absurd hj (Nat.not_lt_zero j))
    rfl
  exact h
